import Mathlib

/-!
Verification development for the authentication and role-authorization
middleware of the FullstackRustDemo repository.

The definitions below are a shallow embedding of `src/auth/jwt.rs`
(module `user_authorization`): the role-guard types `NormalUser`,
`AdminUser`, `ModeratorUser`, their `from_jwt` checks, and the request
pipeline `extract_role_from_request`.  The token codec
(`Jwt::decode_jwt_string` / encoding, from the external `common_auth`
crate) and the banned-set / reauthentication operations are not part of
the sources; where a claim depends on them they are modelled from the
specification, and each such definition says so in its doc comment.

Machine integers (`i32` user ids, `NaiveDateTime` timestamps) are
modelled as `Int`: the code only copies and compares them, so no
overflow behaviour is involved.
-/

namespace FullstackAuth

/-- Roles carried by a token (`common_auth::UserRole`); the sources use
exactly `Unprivileged`, `Moderator` and `Admin`. -/
inductive UserRole where
  | Unprivileged
  | Moderator
  | Admin
deriving DecidableEq, Repr

/-- The decoded token payload (`common_auth::Jwt`), with the fields the
middleware reads: display name, subject id, role set, expiry, and the
issued-at timestamp used by reauthentication. -/
structure Jwt where
  user_name : String
  user_id : Int
  user_roles : List UserRole
  token_issue_date : Int
  token_expire_date : Int
deriving DecidableEq, Repr

/-- `user_authorization::RoleError`: the only failure of a role check. -/
inductive RoleError where
  | InsufficientRights
deriving DecidableEq, Repr

/-- The error taxonomy of `error::WeekendAtJoesError`, restricted to the
variants produced by the middleware. -/
inductive WeekendAtJoesError where
  | MissingToken
  | IllegalToken
  | ExpiredToken
  | NotAuthorized (reason : String)
  | BadRequest
  | InternalServerError
deriving DecidableEq, Repr

/-- The HTTP statuses the middleware pairs with its failures
(`rocket::http::Status`). -/
inductive Status where
  | Unauthorized
  | Forbidden
  | InternalServerError
deriving DecidableEq, Repr

/-- Numeric code of each status, as fixed by HTTP. -/
def Status.code : Status → Nat
  | .Unauthorized => 401
  | .Forbidden => 403
  | .InternalServerError => 500

/-- `rocket::request::Outcome` as used by the guards: success with a
value, or failure with a status and an error. -/
inductive Outcome (α : Type) where
  | Success (user : α)
  | Failure (status : Status) (error : WeekendAtJoesError)
deriving DecidableEq, Repr

/-- Failure reasons of the external token codec
(`common_auth`, spec section 4.1): a token either cannot be parsed or
parses but fails the signature comparison. -/
inductive DecodeError where
  | Malformed
  | SignatureMismatch
deriving DecidableEq, Repr

/-- `user_authorization::NormalUser`: the identity view injected for an
unprivileged route, holding only the display name and subject id. -/
structure NormalUser where
  user_name : String
  user_id : Int
deriving DecidableEq, Repr

/-- `NormalUser::from_jwt`: succeeds exactly when the token's roles
contain `Unprivileged`, copying name and id from the token. -/
def NormalUser.from_jwt (jwt : Jwt) : Except RoleError NormalUser :=
  if jwt.user_roles.contains UserRole.Unprivileged then
    Except.ok { user_name := jwt.user_name, user_id := jwt.user_id }
  else
    Except.error RoleError.InsufficientRights

/-- `NormalUser::get_id`. -/
def NormalUser.get_id (u : NormalUser) : Int := u.user_id

/-- `user_authorization::AdminUser`. -/
structure AdminUser where
  user_name : String
  user_id : Int
deriving DecidableEq, Repr

/-- `AdminUser::from_jwt`: succeeds exactly when the token's roles
contain `Admin`. -/
def AdminUser.from_jwt (jwt : Jwt) : Except RoleError AdminUser :=
  if jwt.user_roles.contains UserRole.Admin then
    Except.ok { user_name := jwt.user_name, user_id := jwt.user_id }
  else
    Except.error RoleError.InsufficientRights

/-- `AdminUser::get_id`. -/
def AdminUser.get_id (u : AdminUser) : Int := u.user_id

/-- `user_authorization::ModeratorUser`. -/
structure ModeratorUser where
  user_name : String
  user_id : Int
deriving DecidableEq, Repr

/-- `ModeratorUser::from_jwt`: succeeds exactly when the token's roles
contain `Moderator`. -/
def ModeratorUser.from_jwt (jwt : Jwt) : Except RoleError ModeratorUser :=
  if jwt.user_roles.contains UserRole.Moderator then
    Except.ok { user_name := jwt.user_name, user_id := jwt.user_id }
  else
    Except.error RoleError.InsufficientRights

/-- `ModeratorUser::get_id`. -/
def ModeratorUser.get_id (u : ModeratorUser) : Int := u.user_id

/-- Modelled from the spec: `BannedSet::is_user_banned`
(the `auth::BannedSet` type is not under the sources; spec section 4.2
describes it as a set of revoked identities with a membership test). -/
def is_user_banned (set : List Int) (id : Int) : Bool :=
  set.contains id

/-- Modelled from the spec: `ban` (spec section 4.2), the idempotent
insert of an identity into the revocation registry. -/
def ban (set : List Int) (id : Int) : List Int :=
  if set.contains id then set else id :: set

/-- `user_authorization::extract_role_from_request`, the per-request
pipeline shared by all three guards.  It is parameterized, as the Rust
generic is, by the guard's role check `from_jwt` and id projection
`get_id`, and by the external codec `decode_jwt_string`; the framework
state guards for the secret and the banned set are modelled as `Option`
values (`none` is the unreachable-state branch of the Rust `match`).
The checks run in the source's order: header count, secret state,
decode+signature, expiry, role, banned set. -/
def extract_role_from_request {α : Type}
    (from_jwt : Jwt → Except RoleError α) (get_id : α → Int)
    (decode_jwt_string : String → String → Except DecodeError Jwt)
    (headers : List String) (secretState : Option String)
    (bannedState : Option (List Int)) (now : Int) : Outcome α :=
  match headers with
  | [key] =>
    match secretState with
    | none => Outcome.Failure Status.InternalServerError WeekendAtJoesError.InternalServerError
    | some secret =>
      match decode_jwt_string key secret with
      | Except.error _ => Outcome.Failure Status.Unauthorized WeekendAtJoesError.IllegalToken
      | Except.ok token =>
        if token.token_expire_date < now then
          Outcome.Failure Status.Unauthorized WeekendAtJoesError.ExpiredToken
        else
          match from_jwt token with
          | Except.error _ =>
            Outcome.Failure Status.Forbidden
              (WeekendAtJoesError.NotAuthorized "User does not have that role.")
          | Except.ok user =>
            match bannedState with
            | none => Outcome.Failure Status.InternalServerError WeekendAtJoesError.InternalServerError
            | some set =>
              if is_user_banned set (get_id user) then
                Outcome.Failure Status.Unauthorized WeekendAtJoesError.BadRequest
              else
                Outcome.Success user
  | _ => Outcome.Failure Status.Unauthorized WeekendAtJoesError.MissingToken

/-- Modelled from the spec: the wire form of a token (spec section 4.1).
The codec lives in the external `common_auth` crate; the spec describes
the wire string as the serialized claims concatenated with a signature
computed over that serialization, so we model it as the payload paired
with its MAC value (the byte-level string encoding is unspecified, and a
faithful serialization is injective, so distinctness of wire strings is
distinctness of these pairs). -/
structure RawToken where
  payload : Jwt
  signature : Nat
deriving DecidableEq, Repr

/-- Numeric encoding of a role, used by the modelled MAC. -/
def UserRole.encode : UserRole → Nat
  | .Unprivileged => 1
  | .Moderator => 2
  | .Admin => 3

/-- Modelled from the spec: the signature over the serialized claims
under the secret (spec section 4.1).  Any concrete keyed function of the
full claims and the secret realizes the contract; this one folds every
claim field and every byte of the secret into an accumulator. -/
def mac (secret : String) (c : Jwt) : Nat :=
  let step : Nat → Nat → Nat := fun acc n => acc * 131 + n + 1
  let s0 := secret.toList.foldl (fun acc ch => step acc ch.toNat) 7
  let s1 := c.user_name.toList.foldl (fun acc ch => step acc ch.toNat) s0
  let s2 := step s1 c.user_id.natAbs
  let s3 := step s2 (if c.user_id < 0 then 1 else 0)
  let s4 := c.user_roles.foldl (fun acc r => step acc r.encode) s3
  let s5 := step s4 c.token_issue_date.natAbs
  let s6 := step s5 (if c.token_issue_date < 0 then 1 else 0)
  let s7 := step s6 c.token_expire_date.natAbs
  step s7 (if c.token_expire_date < 0 then 1 else 0)

/-- Modelled from the spec: `issue` (spec section 4.1) serializes the
claims, signs them with the secret and concatenates payload and
signature into the wire form. -/
def issue (secret : String) (c : Jwt) : RawToken :=
  { payload := c, signature := mac secret c }

/-- Modelled from the spec: `verify` (spec section 4.1) re-derives the
signature over the claimed payload, compares it with the supplied one,
and returns the claims only on a match. -/
def verify (secret : String) (t : RawToken) : Except DecodeError Jwt :=
  if t.signature = mac secret t.payload then
    Except.ok t.payload
  else
    Except.error DecodeError.SignatureMismatch

/-- Modelled from the spec: `reauthenticate` (spec section 4.5) issues a
new token with a refreshed issued-at and an expiry of `now + ttl`, and
otherwise-identical claims; it is only reachable for tokens that already
passed the middleware pipeline. -/
def reauthenticate (secret : String) (ttl : Int) (c : Jwt) (now : Int) : RawToken :=
  issue secret
    { c with token_issue_date := now, token_expire_date := now + ttl }

/-- C9: for every claims value whose expiry lies in the future, verifying
the token issued from it under the same secret returns the claims
unchanged (round-trip at the level of claim-semantic equality). -/
theorem verify_issue_roundtrip (secret : String) (c : Jwt) (now : Int)
    (_h : now < c.token_expire_date) :
    verify secret (issue secret c) = Except.ok c := by
  simp [verify, issue]

/-- Witness for `verify_issue_roundtrip` at a concrete claims value. -/
theorem verify_issue_roundtrip_witness :
    (0 : Int) < (100 : Int) ∧
    verify "sec" (issue "sec" ⟨"alice", 1, [UserRole.Admin], 0, 100⟩)
      = Except.ok ⟨"alice", 1, [UserRole.Admin], 0, 100⟩ :=
  ⟨by decide,
   verify_issue_roundtrip "sec" ⟨"alice", 1, [UserRole.Admin], 0, 100⟩ 0 (by decide)⟩

/-- C5: whenever the codec fails — with either failure kind, malformed
structure or signature mismatch — the middleware produces the single
outward rejection `IllegalToken`, so the two internal cases are
indistinguishable to the caller. -/
theorem decode_failure_yields_illegal_token {α : Type}
    (from_jwt : Jwt → Except RoleError α) (get_id : α → Int)
    (decode_jwt_string : String → String → Except DecodeError Jwt)
    (key secret : String) (bannedState : Option (List Int)) (now : Int)
    (e : DecodeError)
    (hdec : decode_jwt_string key secret = Except.error e) :
    extract_role_from_request from_jwt get_id decode_jwt_string [key]
      (some secret) bannedState now
      = Outcome.Failure Status.Unauthorized WeekendAtJoesError.IllegalToken := by
  simp [extract_role_from_request, hdec]

/-- Witness for `decode_failure_yields_illegal_token`: both a malformed
token and a signature mismatch produce the same `IllegalToken` outcome. -/
theorem decode_failure_yields_illegal_token_witness :
    extract_role_from_request NormalUser.from_jwt NormalUser.get_id
      (fun _ _ => Except.error DecodeError.Malformed) ["tok"] (some "sec") (some []) 0
      = Outcome.Failure Status.Unauthorized WeekendAtJoesError.IllegalToken
    ∧ extract_role_from_request NormalUser.from_jwt NormalUser.get_id
      (fun _ _ => Except.error DecodeError.SignatureMismatch) ["tok"] (some "sec") (some []) 0
      = Outcome.Failure Status.Unauthorized WeekendAtJoesError.IllegalToken :=
  ⟨decode_failure_yields_illegal_token NormalUser.from_jwt NormalUser.get_id
      (fun _ _ => Except.error DecodeError.Malformed) "tok" "sec" (some []) 0
      DecodeError.Malformed rfl,
   decode_failure_yields_illegal_token NormalUser.from_jwt NormalUser.get_id
      (fun _ _ => Except.error DecodeError.SignatureMismatch) "tok" "sec" (some []) 0
      DecodeError.SignatureMismatch rfl⟩

/-- C6: when the Authorization header is absent or supplied more than
once, the middleware rejects with `MissingToken`; the outcome is the
same for every codec, secret, banned set and clock, so no decoding,
expiry, revocation or role check can have influenced it. -/
theorem no_usable_token_rejects_missing {α : Type}
    (from_jwt : Jwt → Except RoleError α) (get_id : α → Int)
    (decode_jwt_string : String → String → Except DecodeError Jwt)
    (headers : List String) (secretState : Option String)
    (bannedState : Option (List Int)) (now : Int)
    (h : headers.length ≠ 1) :
    extract_role_from_request from_jwt get_id decode_jwt_string headers
      secretState bannedState now
      = Outcome.Failure Status.Unauthorized WeekendAtJoesError.MissingToken := by
  cases headers with
  | nil => rfl
  | cons a t =>
    cases t with
    | nil => simp at h
    | cons b t2 => rfl

/-- Witness for `no_usable_token_rejects_missing`: no header at all, and
two conflicting headers, both yield `MissingToken`. -/
theorem no_usable_token_rejects_missing_witness :
    (([] : List String).length ≠ 1
     ∧ extract_role_from_request NormalUser.from_jwt NormalUser.get_id
         (fun _ _ => Except.error DecodeError.Malformed) [] (some "sec") (some []) 0
         = Outcome.Failure Status.Unauthorized WeekendAtJoesError.MissingToken)
    ∧ ((["a", "b"] : List String).length ≠ 1
     ∧ extract_role_from_request NormalUser.from_jwt NormalUser.get_id
         (fun _ _ => Except.error DecodeError.Malformed) ["a", "b"] (some "sec") (some []) 0
         = Outcome.Failure Status.Unauthorized WeekendAtJoesError.MissingToken) :=
  ⟨⟨by decide,
    no_usable_token_rejects_missing NormalUser.from_jwt NormalUser.get_id
      (fun _ _ => Except.error DecodeError.Malformed) [] (some "sec") (some []) 0
      (by decide)⟩,
   ⟨by decide,
    no_usable_token_rejects_missing NormalUser.from_jwt NormalUser.get_id
      (fun _ _ => Except.error DecodeError.Malformed) ["a", "b"] (some "sec") (some []) 0
      (by decide)⟩⟩

/-- C3: each role guard's `from_jwt` succeeds exactly when its required
role is a member of the claims' roles; there is no rank promotion
(roles exactly `[Moderator]` fail the Admin guard, roles exactly
`[Admin]` fail the Moderator guard), and the only possible failure is
`InsufficientRights`. -/
theorem role_guard_is_membership (jwt : Jwt) :
    ((NormalUser.from_jwt jwt).isOk ↔ UserRole.Unprivileged ∈ jwt.user_roles)
    ∧ ((AdminUser.from_jwt jwt).isOk ↔ UserRole.Admin ∈ jwt.user_roles)
    ∧ ((ModeratorUser.from_jwt jwt).isOk ↔ UserRole.Moderator ∈ jwt.user_roles)
    ∧ (jwt.user_roles = [UserRole.Moderator] →
        AdminUser.from_jwt jwt = Except.error RoleError.InsufficientRights)
    ∧ (jwt.user_roles = [UserRole.Admin] →
        ModeratorUser.from_jwt jwt = Except.error RoleError.InsufficientRights)
    ∧ (∀ e, NormalUser.from_jwt jwt = Except.error e → e = RoleError.InsufficientRights)
    ∧ (∀ e, AdminUser.from_jwt jwt = Except.error e → e = RoleError.InsufficientRights)
    ∧ (∀ e, ModeratorUser.from_jwt jwt = Except.error e → e = RoleError.InsufficientRights) := by
  refine ⟨?_, ?_, ?_, ?_, ?_, ?_, ?_, ?_⟩
  · by_cases h : jwt.user_roles.contains UserRole.Unprivileged <;>
      simp_all [NormalUser.from_jwt, Except.isOk, Except.toBool, List.contains, List.elem_iff]
  · by_cases h : jwt.user_roles.contains UserRole.Admin <;>
      simp_all [AdminUser.from_jwt, Except.isOk, Except.toBool, List.contains, List.elem_iff]
  · by_cases h : jwt.user_roles.contains UserRole.Moderator <;>
      simp_all [ModeratorUser.from_jwt, Except.isOk, Except.toBool, List.contains, List.elem_iff]
  · intro h; simp [AdminUser.from_jwt, h]
  · intro h; simp [ModeratorUser.from_jwt, h]
  · intro e _; cases e; rfl
  · intro e _; cases e; rfl
  · intro e _; cases e; rfl

/-- Witness for `role_guard_is_membership` at roles `[Moderator]`: the
Admin guard fails with `InsufficientRights`, while the Moderator guard
succeeds. -/
theorem role_guard_is_membership_witness :
    AdminUser.from_jwt ⟨"bob", 2, [UserRole.Moderator], 0, 100⟩
      = Except.error RoleError.InsufficientRights
    ∧ (ModeratorUser.from_jwt ⟨"bob", 2, [UserRole.Moderator], 0, 100⟩).isOk :=
  ⟨(role_guard_is_membership ⟨"bob", 2, [UserRole.Moderator], 0, 100⟩).2.2.2.1 rfl,
   (role_guard_is_membership ⟨"bob", 2, [UserRole.Moderator], 0, 100⟩).2.2.1.mpr
     (by decide)⟩

/-- C4: for a token that decodes and verifies, the middleware rejects
with `ExpiredToken` exactly when the token's expiry is strictly earlier
than the current time; a token whose expiry equals the current instant
is not rejected as expired. -/
theorem expired_iff_strictly_past (α : Type)
    (from_jwt : Jwt → Except RoleError α) (get_id : α → Int)
    (decode_jwt_string : String → String → Except DecodeError Jwt)
    (key secret : String) (token : Jwt)
    (bannedState : Option (List Int)) (now : Int)
    (hdec : decode_jwt_string key secret = Except.ok token) :
    (extract_role_from_request from_jwt get_id decode_jwt_string [key]
      (some secret) bannedState now
      = Outcome.Failure Status.Unauthorized WeekendAtJoesError.ExpiredToken)
    ↔ token.token_expire_date < now := by
  by_cases hexp : token.token_expire_date < now
  · simp [extract_role_from_request, hdec, hexp]
  · simp only [extract_role_from_request, hdec, if_neg hexp, iff_false_intro hexp, iff_false]
    cases hfj : from_jwt token with
    | error e => simp
    | ok user =>
      cases bannedState with
      | none => simp
      | some set =>
        by_cases hb : is_user_banned set (get_id user) <;> simp [hb]

/-- Witness for `expired_iff_strictly_past`: a token whose expiry is
strictly before now is rejected as expired, and one whose expiry equals
now is not. -/
theorem expired_iff_strictly_past_witness :
    (extract_role_from_request NormalUser.from_jwt NormalUser.get_id
      (fun _ _ => Except.ok ⟨"eve", 3, [UserRole.Unprivileged], 0, 3⟩)
      ["tok"] (some "sec") (some []) 5
      = Outcome.Failure Status.Unauthorized WeekendAtJoesError.ExpiredToken)
    ∧ ¬ (extract_role_from_request NormalUser.from_jwt NormalUser.get_id
      (fun _ _ => Except.ok ⟨"eve", 3, [UserRole.Unprivileged], 0, 5⟩)
      ["tok"] (some "sec") (some []) 5
      = Outcome.Failure Status.Unauthorized WeekendAtJoesError.ExpiredToken) :=
  ⟨(expired_iff_strictly_past NormalUser NormalUser.from_jwt NormalUser.get_id
      (fun _ _ => Except.ok ⟨"eve", 3, [UserRole.Unprivileged], 0, 3⟩)
      "tok" "sec" ⟨"eve", 3, [UserRole.Unprivileged], 0, 3⟩ (some []) 5 rfl).mpr
      (by decide),
   fun h =>
    absurd
      ((expired_iff_strictly_past NormalUser NormalUser.from_jwt NormalUser.get_id
        (fun _ _ => Except.ok ⟨"eve", 3, [UserRole.Unprivileged], 0, 5⟩)
        "tok" "sec" ⟨"eve", 3, [UserRole.Unprivileged], 0, 5⟩ (some []) 5 rfl).mp h)
      (by decide)⟩

/-- C1 counterexample: a validly-signed, non-expired token whose subject
(id 7) is banned but whose roles do not satisfy the Admin requirement is
rejected by the role check with `NotAuthorized` (Forbidden), not by the
revocation check with `BadRequest`: the pipeline runs the role check
before the banned-set check. -/
theorem check_order_counterexample :
    extract_role_from_request AdminUser.from_jwt AdminUser.get_id
      (fun _ _ => Except.ok ⟨"carol", 7, [UserRole.Unprivileged], 0, 100⟩)
      ["tok"] (some "sec") (some [7]) 10
      = Outcome.Failure Status.Forbidden
          (WeekendAtJoesError.NotAuthorized "User does not have that role.")
    ∧ extract_role_from_request AdminUser.from_jwt AdminUser.get_id
      (fun _ _ => Except.ok ⟨"carol", 7, [UserRole.Unprivileged], 0, 100⟩)
      ["tok"] (some "sec") (some [7]) 10
      ≠ Outcome.Failure Status.Unauthorized WeekendAtJoesError.BadRequest := by
  constructor
  · rfl
  · intro h
    have : Status.Forbidden = Status.Unauthorized := by
      have h0 : extract_role_from_request AdminUser.from_jwt AdminUser.get_id
          (fun _ _ => Except.ok ⟨"carol", 7, [UserRole.Unprivileged], 0, 100⟩)
          ["tok"] (some "sec") (some [7]) 10
          = Outcome.Failure Status.Forbidden
              (WeekendAtJoesError.NotAuthorized "User does not have that role.") := rfl
      cases h0 ▸ h
    cases this

/-- C1 amended: after a successful decode of an unexpired token, the
pipeline runs the role check before the revocation check: a role
failure yields `NotAuthorized` even when the subject is banned, and the
`BadRequest` revocation rejection is reached only for tokens whose
roles satisfy the requirement. -/
theorem check_order_amended {α : Type}
    (from_jwt : Jwt → Except RoleError α) (get_id : α → Int)
    (decode_jwt_string : String → String → Except DecodeError Jwt)
    (key secret : String) (token : Jwt) (set : List Int) (now : Int)
    (hdec : decode_jwt_string key secret = Except.ok token)
    (hexp : ¬ token.token_expire_date < now) :
    (∀ e, from_jwt token = Except.error e →
      extract_role_from_request from_jwt get_id decode_jwt_string [key]
        (some secret) (some set) now
        = Outcome.Failure Status.Forbidden
            (WeekendAtJoesError.NotAuthorized "User does not have that role."))
    ∧ (∀ user, from_jwt token = Except.ok user →
        is_user_banned set (get_id user) = true →
        extract_role_from_request from_jwt get_id decode_jwt_string [key]
          (some secret) (some set) now
          = Outcome.Failure Status.Unauthorized WeekendAtJoesError.BadRequest) := by
  constructor
  · intro e hfj
    simp [extract_role_from_request, hdec, hexp, hfj]
  · intro user hfj hb
    simp [extract_role_from_request, hdec, hexp, hfj, hb]

/-- Witness for `check_order_amended`: a banned Admin-role token reaches
the revocation check and is rejected with `BadRequest`. -/
theorem check_order_amended_witness :
    extract_role_from_request AdminUser.from_jwt AdminUser.get_id
      (fun _ _ => Except.ok ⟨"carol", 7, [UserRole.Admin], 0, 100⟩)
      ["tok"] (some "sec") (some [7]) 10
      = Outcome.Failure Status.Unauthorized WeekendAtJoesError.BadRequest :=
  (check_order_amended AdminUser.from_jwt AdminUser.get_id
      (fun _ _ => Except.ok ⟨"carol", 7, [UserRole.Admin], 0, 100⟩)
      "tok" "sec" ⟨"carol", 7, [UserRole.Admin], 0, 100⟩ [7] 10 rfl
      (by decide)).2
    ⟨"carol", 7⟩ rfl rfl

/-- C2 counterexample: after `ban` of identity 7, a request whose token
has subject 7 but is expired is rejected with `ExpiredToken`, not
`BadRequest` — so the ban does not override signature/expiry failures
as the claim states. -/
theorem ban_unconditional_counterexample :
    is_user_banned (ban [] 7) 7 = true
    ∧ extract_role_from_request NormalUser.from_jwt NormalUser.get_id
        (fun _ _ => Except.ok ⟨"dave", 7, [UserRole.Unprivileged], 0, 3⟩)
        ["tok"] (some "sec") (some (ban [] 7)) 10
      = Outcome.Failure Status.Unauthorized WeekendAtJoesError.ExpiredToken
    ∧ extract_role_from_request NormalUser.from_jwt NormalUser.get_id
        (fun _ _ => Except.ok ⟨"dave", 7, [UserRole.Unprivileged], 0, 3⟩)
        ["tok"] (some "sec") (some (ban [] 7)) 10
      ≠ Outcome.Failure Status.Unauthorized WeekendAtJoesError.BadRequest := by
  refine ⟨rfl, rfl, ?_⟩
  intro h
  have h0 : extract_role_from_request NormalUser.from_jwt NormalUser.get_id
      (fun _ _ => Except.ok ⟨"dave", 7, [UserRole.Unprivileged], 0, 3⟩)
      ["tok"] (some "sec") (some (ban [] 7)) 10
      = Outcome.Failure Status.Unauthorized WeekendAtJoesError.ExpiredToken := rfl
  cases h0 ▸ h

/-- C2 amended: after `ban I`, every subsequently-evaluated request
whose token decodes and verifies, is unexpired, and passes the role
check with subject I is rejected with `BadRequest`; the same request
evaluated against the pre-ban registry state, where I is not banned,
succeeds unchanged. -/
theorem ban_rejects_amended {α : Type}
    (from_jwt : Jwt → Except RoleError α) (get_id : α → Int)
    (decode_jwt_string : String → String → Except DecodeError Jwt)
    (key secret : String) (token : Jwt) (set : List Int) (i now : Int)
    (user : α)
    (hdec : decode_jwt_string key secret = Except.ok token)
    (hexp : ¬ token.token_expire_date < now)
    (hfj : from_jwt token = Except.ok user)
    (hid : get_id user = i) :
    (extract_role_from_request from_jwt get_id decode_jwt_string [key]
      (some secret) (some (ban set i)) now
      = Outcome.Failure Status.Unauthorized WeekendAtJoesError.BadRequest)
    ∧ (is_user_banned set i = false →
       extract_role_from_request from_jwt get_id decode_jwt_string [key]
         (some secret) (some set) now
         = Outcome.Success user) := by
  have hban : is_user_banned (ban set i) i = true := by
    by_cases hc : i ∈ set <;> simp [is_user_banned, ban, hc]
  constructor
  · simp [extract_role_from_request, hdec, hexp, hfj, hid, hban]
  · intro hnb
    simp [extract_role_from_request, hdec, hexp, hfj, hid, hnb]

/-- Witness for `ban_rejects_amended`: identity 9 is accepted against
the empty registry and rejected with `BadRequest` once banned. -/
theorem ban_rejects_amended_witness :
    (extract_role_from_request NormalUser.from_jwt NormalUser.get_id
      (fun _ _ => Except.ok ⟨"erin", 9, [UserRole.Unprivileged], 0, 100⟩)
      ["tok"] (some "sec") (some (ban [] 9)) 10
      = Outcome.Failure Status.Unauthorized WeekendAtJoesError.BadRequest)
    ∧ (extract_role_from_request NormalUser.from_jwt NormalUser.get_id
      (fun _ _ => Except.ok ⟨"erin", 9, [UserRole.Unprivileged], 0, 100⟩)
      ["tok"] (some "sec") (some []) 10
      = Outcome.Success ⟨"erin", 9⟩) :=
  have h := ban_rejects_amended NormalUser.from_jwt NormalUser.get_id
    (fun _ _ => Except.ok ⟨"erin", 9, [UserRole.Unprivileged], 0, 100⟩)
    "tok" "sec" ⟨"erin", 9, [UserRole.Unprivileged], 0, 100⟩ [] 9 10
    ⟨"erin", 9⟩ rfl (by decide) rfl rfl
  ⟨h.1, h.2 rfl⟩

/-- C8: when the middleware succeeds for the unprivileged guard, the
injected identity is exactly the display name and subject id copied
unchanged from the verified token's claims — the `NormalUser` record
has no other fields, so no other claim data (in particular not the
roles) reaches downstream code. -/
theorem success_identity_is_minimal
    (decode_jwt_string : String → String → Except DecodeError Jwt)
    (key secret : String) (token : Jwt) (bannedState : Option (List Int))
    (now : Int) (u : NormalUser)
    (hdec : decode_jwt_string key secret = Except.ok token)
    (hres : extract_role_from_request NormalUser.from_jwt NormalUser.get_id
        decode_jwt_string [key] (some secret) bannedState now
        = Outcome.Success u) :
    u = { user_name := token.user_name, user_id := token.user_id } := by
  simp only [extract_role_from_request, hdec] at hres
  by_cases hexp : token.token_expire_date < now
  · simp [hexp] at hres
  · by_cases hr : UserRole.Unprivileged ∈ token.user_roles
    · cases bannedState with
      | none => simp [hexp, NormalUser.from_jwt, hr] at hres
      | some set =>
        by_cases hb : is_user_banned set token.user_id = true
        · simp [hexp, NormalUser.from_jwt, hr, NormalUser.get_id, hb] at hres
        · simp [hexp, NormalUser.from_jwt, hr, NormalUser.get_id, hb] at hres
          exact hres.symm
    · simp [hexp, NormalUser.from_jwt, hr] at hres

/-- Witness for `success_identity_is_minimal` at a concrete accepted
request. -/
theorem success_identity_is_minimal_witness :
    extract_role_from_request NormalUser.from_jwt NormalUser.get_id
      (fun _ _ => Except.ok ⟨"gina", 11, [UserRole.Unprivileged], 0, 100⟩)
      ["tok"] (some "sec") (some []) 10
      = Outcome.Success ⟨"gina", 11⟩
    ∧ (⟨"gina", 11⟩ : NormalUser)
      = { user_name := "gina", user_id := 11 } :=
  ⟨rfl,
   success_identity_is_minimal
    (fun _ _ => Except.ok ⟨"gina", 11, [UserRole.Unprivileged], 0, 100⟩)
    "tok" "sec" ⟨"gina", 11, [UserRole.Unprivileged], 0, 100⟩ (some []) 10
    ⟨"gina", 11⟩ rfl rfl⟩

/-- C10: the rejection for a banned subject is the pair of HTTP status
`Unauthorized` — whose numeric code is 401, not 400 — and the
`BadRequest` error value. -/
theorem banned_rejection_is_401 {α : Type}
    (from_jwt : Jwt → Except RoleError α) (get_id : α → Int)
    (decode_jwt_string : String → String → Except DecodeError Jwt)
    (key secret : String) (token : Jwt) (set : List Int) (now : Int)
    (user : α)
    (hdec : decode_jwt_string key secret = Except.ok token)
    (hexp : ¬ token.token_expire_date < now)
    (hfj : from_jwt token = Except.ok user)
    (hb : is_user_banned set (get_id user) = true) :
    extract_role_from_request from_jwt get_id decode_jwt_string [key]
      (some secret) (some set) now
      = Outcome.Failure Status.Unauthorized WeekendAtJoesError.BadRequest
    ∧ Status.Unauthorized.code = 401
    ∧ Status.Unauthorized.code ≠ 400 := by
  refine ⟨?_, rfl, by decide⟩
  simp [extract_role_from_request, hdec, hexp, hfj, hb]

/-- Witness for `banned_rejection_is_401` at a concrete banned request. -/
theorem banned_rejection_is_401_witness :
    extract_role_from_request NormalUser.from_jwt NormalUser.get_id
      (fun _ _ => Except.ok ⟨"hank", 13, [UserRole.Unprivileged], 0, 100⟩)
      ["tok"] (some "sec") (some [13]) 10
      = Outcome.Failure Status.Unauthorized WeekendAtJoesError.BadRequest :=
  (banned_rejection_is_401 NormalUser.from_jwt NormalUser.get_id
    (fun _ _ => Except.ok ⟨"hank", 13, [UserRole.Unprivileged], 0, 100⟩)
    "tok" "sec" ⟨"hank", 13, [UserRole.Unprivileged], 0, 100⟩ [13] 10
    ⟨"hank", 13⟩ rfl (by decide) rfl rfl).1

/-- C7: applying `reauthenticate` at two successive instants after
issuance, both within the first refresh's lifetime, yields two tokens
distinct from each other and from the original wire form; each verifies
under the same secret to the original claims with only issued-at and
expiry refreshed, and each passes the full middleware pipeline at the
later instant whenever the original claims' role passes the guard and
the subject is not banned. -/
theorem reauthenticate_twice_distinct_valid (secret : String) (ttl : Int)
    (c : Jwt) (now1 now2 : Int)
    (h0 : c.token_issue_date < now1) (h12 : now1 < now2)
    (hsucc : now2 ≤ now1 + ttl) :
    (reauthenticate secret ttl c now1 ≠ reauthenticate secret ttl c now2)
    ∧ (reauthenticate secret ttl c now1 ≠ issue secret c)
    ∧ (reauthenticate secret ttl c now2 ≠ issue secret c)
    ∧ verify secret (reauthenticate secret ttl c now1)
        = Except.ok { c with token_issue_date := now1, token_expire_date := now1 + ttl }
    ∧ verify secret (reauthenticate secret ttl c now2)
        = Except.ok { c with token_issue_date := now2, token_expire_date := now2 + ttl }
    ∧ (∀ set : List Int, is_user_banned set c.user_id = false →
        UserRole.Unprivileged ∈ c.user_roles →
        extract_role_from_request NormalUser.from_jwt NormalUser.get_id
          (fun _ s => verify s (reauthenticate secret ttl c now1))
          ["tok"] (some secret) (some set) now2
          = Outcome.Success { user_name := c.user_name, user_id := c.user_id })
    ∧ (∀ set : List Int, is_user_banned set c.user_id = false →
        UserRole.Unprivileged ∈ c.user_roles →
        extract_role_from_request NormalUser.from_jwt NormalUser.get_id
          (fun _ s => verify s (reauthenticate secret ttl c now2))
          ["tok"] (some secret) (some set) now2
          = Outcome.Success { user_name := c.user_name, user_id := c.user_id }) := by
  have hne12 : now1 ≠ now2 := Int.ne_of_lt h12
  have hne01 : c.token_issue_date ≠ now1 := Int.ne_of_lt h0
  have hne02 : c.token_issue_date ≠ now2 := Int.ne_of_lt (lt_trans h0 h12)
  have hexp1 : ¬ (now1 + ttl < now2) := by omega
  have hexp2 : ¬ (now2 + ttl < now2) := by omega
  refine ⟨?_, ?_, ?_, ?_, ?_, ?_, ?_⟩
  · intro h
    exact hne12 (congrArg (fun t => t.payload.token_issue_date) h)
  · intro h
    exact hne01 (congrArg (fun t => t.payload.token_issue_date) h).symm
  · intro h
    exact hne02 (congrArg (fun t => t.payload.token_issue_date) h).symm
  · simp [verify, reauthenticate, issue]
  · simp [verify, reauthenticate, issue]
  · intro set hnb hrole
    have hcont : c.user_roles.contains UserRole.Unprivileged = true := by
      simpa [List.contains, List.elem_iff] using hrole
    simp [extract_role_from_request, verify, reauthenticate, issue, hexp1,
      NormalUser.from_jwt, hcont, hrole, NormalUser.get_id, hnb]
  · intro set hnb hrole
    have hcont : c.user_roles.contains UserRole.Unprivileged = true := by
      simpa [List.contains, List.elem_iff] using hrole
    simp [extract_role_from_request, verify, reauthenticate, issue, hexp2,
      NormalUser.from_jwt, hcont, hrole, NormalUser.get_id, hnb]

/-- Witness for `reauthenticate_twice_distinct_valid`: two refreshes of
a concrete token at instants 5 and 6 differ, and the first refresh is
accepted by the middleware pipeline at instant 6. -/
theorem reauthenticate_twice_witness :
    (reauthenticate "sk" 60 ⟨"frank", 4, [UserRole.Unprivileged], 0, 50⟩ 5
      ≠ reauthenticate "sk" 60 ⟨"frank", 4, [UserRole.Unprivileged], 0, 50⟩ 6)
    ∧ extract_role_from_request NormalUser.from_jwt NormalUser.get_id
        (fun _ s => verify s
          (reauthenticate "sk" 60 ⟨"frank", 4, [UserRole.Unprivileged], 0, 50⟩ 5))
        ["tok"] (some "sk") (some []) 6
      = Outcome.Success { user_name := "frank", user_id := 4 } :=
  have h := reauthenticate_twice_distinct_valid "sk" 60
    ⟨"frank", 4, [UserRole.Unprivileged], 0, 50⟩ 5 6
    (by decide) (by decide) (by decide)
  ⟨h.1, h.2.2.2.2.2.1 [] rfl (by decide)⟩

end FullstackAuth
